import Mathlib

/-!
Verification of the Snyk CI/CD gating pipeline (`snyk.py`) against its
specification.  The Python module is embedded shallowly: pure functions
(`summarize_severities`, `evaluate_severity_summary`, the command
construction inside `trigger_sast_scan` / `trigger_sca_scan`) become Lean
functions; the effectful parts (subprocess execution, the environment, the
JSON parse of captured stdout) are parameterised by their outcomes, and
`main` is modelled as a function from those outcomes to the process result
together with the list of scanner commands it executed.  Python exceptions
are modelled with `Except`/`PyError`; an exception that no handler catches
terminates the CPython process with exit status 1 (`RunResult.uncaught`).
-/

/-- Kinds of Python exception that arise in `snyk.py`:
`valueError` is raised by `check_snyk_token` (line 41);
`calledProcessError` by `subprocess.run(..., check=True)`;
`jsonDecodeError` by `json.loads` on unparsable stdout (lines 87/135);
`typeError` by a call missing a required positional argument (line 338);
`unboundLocalError` by reading a local variable that was never assigned
(the `command` variable in lines 59-74 when `target` matches no branch). -/
inductive PyError where
  | valueError (msg : String)
  | calledProcessError
  | jsonDecodeError
  | typeError
  | unboundLocalError
deriving DecidableEq, Repr

/-- The Python value bound to `target` (from `config.get('target')` or a
caller): a string (whole-project path), a list of file paths, `None`
(e.g. a missing config key), or some other non-str non-list value,
represented by an integer. -/
inductive PyTarget where
  | pyStr (s : String)
  | pyList (files : List String)
  | pyNone
  | pyInt (n : Int)
deriving DecidableEq, Repr

/-- One entry of `runs[].results[]` in the scanner's JSON output; only the
`level` field is consumed (line 191).  `none` models a missing key, which
`result.get("level", "")` turns into the empty string. -/
structure ScanResultEntry where
  level : Option String
deriving DecidableEq, Repr

/-- One entry of `runs[]`; `none` models a missing `results` key, which
`run.get('results', [])` turns into the empty list. -/
structure ScanRun where
  results : Option (List ScanResultEntry)
deriving DecidableEq, Repr

/-- The consumed subset of the scanner's JSON document: the `runs` key
(line 189, default `[]`) and the `scan_time` key (line 199, default `0`).
`none` models an absent key; the numeric scan duration is abstracted to a
natural number, which no specified property inspects. -/
structure RawScanResult where
  runs : Option (List ScanRun)
  scan_time : Option Nat
deriving DecidableEq, Repr

/-- Python truthiness of the result dict at `if scan_results:` (line 342):
a dict is truthy iff it is non-empty, which over the modelled key universe
means at least one of the two consumed keys is present. -/
def RawScanResult.truthy (r : RawScanResult) : Bool :=
  r.runs.isSome || r.scan_time.isSome

/-- The severity-summary dict built by `summarize_severities`: the three
buckets initialised at line 186 plus the `scan_time` key added at
line 199. -/
structure SeverityCounts where
  low : Nat
  medium : Nat
  high : Nat
  scan_time : Nat
deriving DecidableEq, Repr

/-- Body of the inner loop of `summarize_severities` (lines 191-197):
read `level` with default `""`, then bump `low` for `note`/`info`,
`medium` for `warning`, and `high` otherwise. -/
def countResult (c : SeverityCounts) (result : ScanResultEntry) : SeverityCounts :=
  let level := result.level.getD ""
  if level == "note" || level == "info" then { c with low := c.low + 1 }
  else if level == "warning" then { c with medium := c.medium + 1 }
  else { c with high := c.high + 1 }

/-- The inner `for result in run.get('results', [])` loop (line 190). -/
def countRun (c : SeverityCounts) (run : ScanRun) : SeverityCounts :=
  (run.results.getD []).foldl countResult c

/-- `SnykScanner.summarize_severities` (lines 179-205): fold the nested
loops over `scan_results.get('runs', [])` starting from the all-zero
counts, then copy `scan_results.get('scan_time', 0)` into the summary. -/
def summarize_severities (scan_results : RawScanResult) : SeverityCounts :=
  let severity_counts : SeverityCounts :=
    { low := 0, medium := 0, high := 0, scan_time := 0 }
  let severity_counts := (scan_results.runs.getD []).foldl countRun severity_counts
  { severity_counts with scan_time := scan_results.scan_time.getD 0 }

/-- `SnykScanner.evaluate_severity_summary` (lines 253-268): fail (False)
iff the `high` bucket is positive. -/
def evaluate_severity_summary (severity_summary : SeverityCounts) : Bool :=
  if severity_summary.high > 0 then false else true

/-- Spec-side classifier: a result counts as low severity when its level is
`note` or `info` (a missing level reads as `""`). -/
def isLow (r : ScanResultEntry) : Bool :=
  r.level.getD "" == "note" || r.level.getD "" == "info"

/-- Spec-side classifier: a result counts as medium severity when its level
is `warning`. -/
def isMedium (r : ScanResultEntry) : Bool :=
  r.level.getD "" == "warning"

/-- Spec-side classifier: any other level, including a missing or empty
one, counts as high severity. -/
def isHigh (r : ScanResultEntry) : Bool :=
  !(isLow r) && !(isMedium r)

/-- All result entries of a document, across all runs, in document order. -/
def allResults (doc : RawScanResult) : List ScanResultEntry :=
  ((doc.runs.getD []).map (fun run => run.results.getD [])).flatten

/-- Log severities of the `logger` calls in `snyk.py`. -/
inductive LogLevel where
  | info
  | warning
  | error
deriving DecidableEq, Repr

/-- The exit-code interpretation shared by `trigger_sast_scan`
(lines 77-86) and `trigger_sca_scan` (lines 125-134): `0` logs info,
`1` logs a warning ("Vulnerabilities found"), and `2`, `3` and every
other code log an error; no branch raises, and execution always
continues to `json.loads(result.stdout)`. -/
def scanReturncodeLogLevel (returncode : Int) : LogLevel :=
  if returncode = 0 then .info
  else if returncode = 1 then .warning
  else if returncode = 2 then .error
  else if returncode = 3 then .error
  else .error

/-- Command construction of `trigger_sast_scan` (lines 59-71): a string
target yields `['snyk','code','test','--json', target]`; a list target
yields the same prefix followed by one `--file=<path>` flag per entry;
any other target leaves the local `command` unassigned, so its first
later use raises `UnboundLocalError` (the validating `else: raise
ValueError(...)` at lines 70-71 is commented out).  When `project_name`
is set, `--report` and `--project-name=<n>` are appended, then
`--target-name=<n>` when `target_name` is also set (lines 65-69). -/
def buildSastCommand (target : PyTarget) (project_name target_name : Option String) :
    Except PyError (List String) := do
  let command ← match target with
    | .pyStr t => pure ["snyk", "code", "test", "--json", t]
    | .pyList files =>
        let flag_changed_files := files.map (fun file => "--file=" ++ file)
        pure (["snyk", "code", "test", "--json"] ++ flag_changed_files)
    | _ => Except.error .unboundLocalError
  match project_name with
  | none => pure command
  | some pn =>
    let command := command ++ ["--report", "--project-name=" ++ pn]
    match target_name with
    | none => pure command
    | some tn => pure (command ++ ["--target-name=" ++ tn])

/-- Command construction of `trigger_sca_scan` (lines 107-119): identical
to the SAST form except the base command omits the `code` subcommand. -/
def buildScaCommand (target : PyTarget) (project_name target_name : Option String) :
    Except PyError (List String) := do
  let command ← match target with
    | .pyStr t => pure ["snyk", "test", "--json", t]
    | .pyList files =>
        let flag_changed_files := files.map (fun file => "--file=" ++ file)
        pure (["snyk", "test", "--json"] ++ flag_changed_files)
    | _ => Except.error .unboundLocalError
  match project_name with
  | none => pure command
  | some pn =>
    let command := command ++ ["--report", "--project-name=" ++ pn]
    match target_name with
    | none => pure command
    | some tn => pure (command ++ ["--target-name=" ++ tn])

/-- Spec-side abbreviation for the upload-flag suffix appended at
lines 65-69 / 113-117, used to state the argument-construction claims. -/
def reportFlags (project_name target_name : Option String) : List String :=
  match project_name with
  | none => []
  | some pn =>
    ["--report", "--project-name=" ++ pn] ++
      match target_name with
      | none => []
      | some tn => ["--target-name=" ++ tn]

/-- `SnykScanner.trigger_sast_scan` (lines 50-96), parameterised by the
subprocess outcome: `returncode` is the scanner's exit status (consumed
only by the log line classified by `scanReturncodeLogLevel`, never a
gate) and `parsed` is the outcome of `json.loads(result.stdout)`
(`none` = `JSONDecodeError`).  Returns the function's result together
with the list of scanner commands actually executed: when the `command`
variable is never assigned, `UnboundLocalError` is raised before
`subprocess.run`, so no command runs. -/
def trigger_sast_scan (target : PyTarget) (project_name target_name : Option String)
    (returncode : Int) (parsed : Option RawScanResult) :
    Except PyError RawScanResult × List (List String) :=
  match buildSastCommand target project_name target_name with
  | .error e => (.error e, [])
  | .ok command =>
    let _ := scanReturncodeLogLevel returncode
    match parsed with
    | none => (.error .jsonDecodeError, [command])
    | some scan_results => (.ok scan_results, [command])

/-- `SnykScanner.trigger_sca_scan` (lines 98-145), modelled exactly like
`trigger_sast_scan` but over the SCA command. -/
def trigger_sca_scan (target : PyTarget) (project_name target_name : Option String)
    (returncode : Int) (parsed : Option RawScanResult) :
    Except PyError RawScanResult × List (List String) :=
  match buildScaCommand target project_name target_name with
  | .error e => (.error e, [])
  | .ok command =>
    let _ := scanReturncodeLogLevel returncode
    match parsed with
    | none => (.error .jsonDecodeError, [command])
    | some scan_results => (.ok scan_results, [command])

/-- `SnykScanner.check_snyk_token` (lines 32-48), parameterised by the
environment and the auth subprocess outcome: if `'SNYK_TOKEN' in
os.environ` it raises `ValueError` before any subprocess; otherwise it
runs `['snyk','auth', token]` with `check=True`, which raises
`CalledProcessError` on a non-zero exit.  Returns the outcome together
with the list of subprocess commands attempted. -/
def check_snyk_token (envHasSnykToken : Bool) (authOk : Bool) (token : String) :
    Except PyError Unit × List (List String) :=
  if envHasSnykToken then
    (.error (.valueError "SNYK_TOKEN environment variable not set."), [])
  else if authOk then (.ok (), [["snyk", "auth", token]])
  else (.error .calledProcessError, [["snyk", "auth", token]])

/-- The parsed command-line arguments of `main` (lines 293-302).  Only
`scan_for_push` and `report` are ever consulted after parsing; in
particular no branch of `main` reads `scan_for_pr`, `base_branch`,
`pr_branch` or `repo_path`. -/
structure Args where
  scan_for_push : Bool
  scan_for_pr : Bool
  report : Bool
  target_name : Option String
  base_branch : Option String
  pr_branch : Option String
  repo_path : String
deriving DecidableEq, Repr

/-- The values read from `config.json` (lines 306-310).  `auth_token` is
assumed present as a string (an absent key would surface as a
`TypeError` inside the auth subprocess call, outside the claims
considered here); `target` may be any Python value, including `None`
for a missing key. -/
structure Config where
  project_path : Option String
  org_id : Option String
  project_id : Option String
  auth_token : String
  target : PyTarget
deriving DecidableEq, Repr

/-- The outcomes of the effectful steps `main` depends on:
whether `snyk --version` succeeds (`check_snyk_installed`), whether
`SNYK_TOKEN` is in the process environment, whether `snyk auth` exits 0,
the scanner subprocess's exit code, the parse outcome of its stdout, and
what `get_changed_files` would return if it were ever invoked (no branch
of `main` invokes it). -/
structure World where
  toolInstalled : Bool
  envHasSnykToken : Bool
  authOk : Bool
  scanReturncode : Int
  scanParsed : Option RawScanResult
  changedFiles : List String
deriving DecidableEq, Repr

/-- How the process run ends: a normal or `sys.exit` termination with an
explicit status, or an exception that no handler catches.  CPython
terminates with status 1 on an uncaught exception. -/
inductive RunResult where
  | exit (code : Nat)
  | uncaught (e : PyError)
deriving DecidableEq, Repr

/-- The operating-system exit status of a `RunResult`. -/
def RunResult.processExit : RunResult → Nat
  | .exit code => code
  | .uncaught _ => 1

/-- The `main` function (lines 285-351) -- named `mainRun` here since Lean
reserves `main` for entry points -- modelled as a function from the argument
vector, the configuration and the effect outcomes to the run result
together with the scanner commands executed.  Control flow mirrors the
source: a `check_snyk_installed` failure is caught by `except Exception`
and returns (exit 0, lines 313-317); a `ValueError` from
`check_snyk_token` is caught by `except ValueError` and returns (exit 0,
lines 320-324), while a `CalledProcessError` from the auth subprocess
matches no handler and escapes.  Only the `scan_for_push` branch exists
(line 328): without `--report` it scans `config['target']`
(line 331) and, when the parsed result dict is truthy (line 342),
summarizes, persists (the JSON writes are modelled as succeeding) and
exits 1 via `sys.exit(1)` iff the gate fails (lines 348-349); with
`--report` it calls `scanner.trigger_sast_scan(project_name=project_path)`
(line 338), which omits the required positional `target` and raises
`TypeError` before any scan.  Any other argument combination falls
through to the end of `main` and exits 0. -/
def mainRun (args : Args) (config : Config) (w : World) : RunResult × List (List String) :=
  if !w.toolInstalled then (.exit 0, [])
  else
    match (check_snyk_token w.envHasSnykToken w.authOk config.auth_token).fst with
    | .error (.valueError _) => (.exit 0, [])
    | .error e => (.uncaught e, [])
    | .ok () =>
      if args.scan_for_push then
        if !args.report then
          let scanRun := trigger_sast_scan config.target none none w.scanReturncode w.scanParsed
          match scanRun.fst with
          | .error e => (.uncaught e, scanRun.snd)
          | .ok scan_results =>
            if scan_results.truthy then
              let severity_summary := summarize_severities scan_results
              if evaluate_severity_summary severity_summary then (.exit 0, scanRun.snd)
              else (.exit 1, scanRun.snd)
            else (.exit 0, scanRun.snd)
        else (.uncaught .typeError, [])
      else (.exit 0, [])

/-- One result bumps exactly one bucket, the one its classifier selects. -/
lemma countResult_spec (c : SeverityCounts) (r : ScanResultEntry) :
    countResult c r =
      { low := c.low + (if isLow r then 1 else 0),
        medium := c.medium + (if isMedium r then 1 else 0),
        high := c.high + (if isHigh r then 1 else 0),
        scan_time := c.scan_time } := by
  simp only [countResult, isLow, isMedium, isHigh]
  by_cases hb : (r.level.getD "" == "note" || r.level.getD "" == "info") = true
  · have hw : (r.level.getD "" == "warning") = false := by
      rcases Bool.or_eq_true_iff.mp hb with h | h
      · rw [eq_of_beq h]; decide
      · rw [eq_of_beq h]; decide
    simp [hb, hw]
  · by_cases hw : (r.level.getD "" == "warning") = true
    · simp [hb, hw]
    · simp [hb, hw]

/-- Every result falls in exactly one of the three buckets. -/
lemma classify_tri (r : ScanResultEntry) :
    (if isLow r then 1 else 0) + (if isMedium r then 1 else 0)
      + (if isHigh r then 1 else 0) = 1 := by
  by_cases hl : isLow r = true
  · have hm : isMedium r = false := by
      simp only [isLow] at hl
      simp only [isMedium]
      rcases Bool.or_eq_true_iff.mp hl with h | h
      · rw [eq_of_beq h]; decide
      · rw [eq_of_beq h]; decide
    simp [hl, hm, isHigh]
  · by_cases hm : isMedium r = true
    · simp [Bool.eq_false_iff.mpr hl, hm, isHigh]
    · simp [Bool.eq_false_iff.mpr hl, Bool.eq_false_iff.mpr hm, isHigh]

/-- Folding `countResult` over a result list adds the classifier counts. -/
lemma foldl_countResult (rs : List ScanResultEntry) (c : SeverityCounts) :
    rs.foldl countResult c =
      { low := c.low + rs.countP isLow,
        medium := c.medium + rs.countP isMedium,
        high := c.high + rs.countP isHigh,
        scan_time := c.scan_time } := by
  induction rs generalizing c with
  | nil => simp [List.countP_nil]
  | cons r rs ih =>
    rw [List.foldl_cons, ih, countResult_spec]
    simp only [List.countP_cons, SeverityCounts.mk.injEq]
    refine ⟨by omega, by omega, by omega, trivial⟩

/-- Folding `countRun` over the run list adds the classifier counts over
all results of all runs. -/
lemma foldl_countRun (runs : List ScanRun) (c : SeverityCounts) :
    runs.foldl countRun c =
      { low := c.low + ((runs.map (fun run => run.results.getD [])).flatten).countP isLow,
        medium := c.medium + ((runs.map (fun run => run.results.getD [])).flatten).countP isMedium,
        high := c.high + ((runs.map (fun run => run.results.getD [])).flatten).countP isHigh,
        scan_time := c.scan_time } := by
  induction runs generalizing c with
  | nil => simp
  | cons run runs ih =>
    rw [List.foldl_cons]
    show runs.foldl countRun (countRun c run) = _
    rw [ih]
    simp only [countRun, foldl_countResult, List.map_cons, List.flatten_cons,
      List.countP_append, SeverityCounts.mk.injEq]
    refine ⟨by omega, by omega, by omega, trivial⟩

/-- The three classifiers partition any result list. -/
lemma countP_partition (l : List ScanResultEntry) :
    l.countP isLow + l.countP isMedium + l.countP isHigh = l.length := by
  induction l with
  | nil => simp
  | cons r l ih =>
    simp only [List.countP_cons, List.length_cons]
    have h := classify_tri r
    omega

/-- C1: for every input document, `summarize_severities` returns the
histogram whose `low` bucket counts the `note`/`info` results, whose
`medium` bucket counts the `warning` results, and whose `high` bucket
counts every other result (missing or empty level included), across all
runs; the three buckets sum to the total result count, and the empty
document yields the all-zero histogram. -/
theorem summarize_severities_histogram :
    (∀ doc : RawScanResult,
        (summarize_severities doc).low = (allResults doc).countP isLow
      ∧ (summarize_severities doc).medium = (allResults doc).countP isMedium
      ∧ (summarize_severities doc).high = (allResults doc).countP isHigh
      ∧ (summarize_severities doc).low + (summarize_severities doc).medium
          + (summarize_severities doc).high = (allResults doc).length)
    ∧ summarize_severities { runs := none, scan_time := none }
        = { low := 0, medium := 0, high := 0, scan_time := 0 } := by
  constructor
  · intro doc
    have h := foldl_countRun (doc.runs.getD []) { low := 0, medium := 0, high := 0, scan_time := 0 }
    have hsum := countP_partition (allResults doc)
    simp only [summarize_severities, allResults] at *
    rw [h]
    simp only [Nat.zero_add] at *
    exact ⟨trivial, trivial, trivial, hsum⟩
  · rfl

/-- C2: the gate decision `evaluate_severity_summary` passes exactly when
the `high` bucket is zero; the `low`, `medium` and `scan_time` fields
never affect the verdict; the all-zero histogram passes and the
`{0,0,1}` histogram fails. -/
theorem evaluate_severity_summary_pass_iff_no_high :
    (∀ s : SeverityCounts, evaluate_severity_summary s = true ↔ s.high = 0)
  ∧ (∀ low medium high st low2 medium2 st2 : Nat,
      evaluate_severity_summary { low := low, medium := medium, high := high, scan_time := st }
        = evaluate_severity_summary
            { low := low2, medium := medium2, high := high, scan_time := st2 })
  ∧ evaluate_severity_summary { low := 0, medium := 0, high := 0, scan_time := 0 } = true
  ∧ evaluate_severity_summary { low := 0, medium := 0, high := 1, scan_time := 0 } = false := by
  refine ⟨?_, ?_, rfl, rfl⟩
  · intro s
    simp only [evaluate_severity_summary]
    split <;> rename_i h <;> simp <;> omega
  · intro low medium high st low2 medium2 st2
    simp only [evaluate_severity_summary]

/-- C3: exit code 1 from the scanner never produces an invocation error:
the run is logged at warning level (not error) and the parsed result
still flows out of both trigger functions; exit codes 2, 3 and 7 are
classified as invocation errors, and in general a code is classified as
an error exactly when it is neither 0 nor 1. -/
theorem trigger_scan_exit_code_policy :
    (∀ (t : String) (pn tn : Option String) (r : RawScanResult),
        (trigger_sast_scan (.pyStr t) pn tn 1 (some r)).fst = .ok r)
  ∧ (∀ (t : String) (pn tn : Option String) (r : RawScanResult),
        (trigger_sca_scan (.pyStr t) pn tn 1 (some r)).fst = .ok r)
  ∧ scanReturncodeLogLevel 1 = .warning
  ∧ scanReturncodeLogLevel 1 ≠ .error
  ∧ scanReturncodeLogLevel 2 = .error
  ∧ scanReturncodeLogLevel 3 = .error
  ∧ scanReturncodeLogLevel 7 = .error
  ∧ (∀ c : Int, scanReturncodeLogLevel c = .error ↔ c ≠ 0 ∧ c ≠ 1) := by
  refine ⟨?_, ?_, rfl, by decide, rfl, rfl, by decide, ?_⟩
  · intro t pn tn r
    rcases pn with _ | pn <;> rcases tn with _ | tn <;> rfl
  · intro t pn tn r
    rcases pn with _ | pn <;> rcases tn with _ | tn <;> rfl
  · intro c
    simp only [scanReturncodeLogLevel]
    split_ifs with h0 h1 h2 h3 <;> simp_all

/-- C5: `check_snyk_token` raises `ValueError` when `SNYK_TOKEN` IS in
the environment, attempting no subprocess; when the variable is absent
it runs `snyk auth` with the supplied token (succeeding or raising
`CalledProcessError` with the auth command's outcome). -/
theorem check_snyk_token_env_policy :
    ∀ (token : String) (authOk : Bool),
      check_snyk_token true authOk token
        = (.error (.valueError "SNYK_TOKEN environment variable not set."), [])
    ∧ check_snyk_token false true token = (.ok (), [["snyk", "auth", token]])
    ∧ check_snyk_token false false token
        = (.error .calledProcessError, [["snyk", "auth", token]]) := by
  intro token authOk
  exact ⟨rfl, rfl, rfl⟩

/-- C6: for a list target, both scan commands consist of the fixed base,
then exactly one `--file=<path>` flag per listed path in input order,
then the report flags -- and no bare target path argument. -/
theorem trigger_scan_file_flags :
    ∀ (files : List String) (pn tn : Option String),
      buildSastCommand (.pyList files) pn tn
        = .ok (["snyk", "code", "test", "--json"]
            ++ files.map (fun file => "--file=" ++ file) ++ reportFlags pn tn)
    ∧ buildScaCommand (.pyList files) pn tn
        = .ok (["snyk", "test", "--json"]
            ++ files.map (fun file => "--file=" ++ file) ++ reportFlags pn tn) := by
  intro files pn tn
  rcases pn with _ | pn <;> rcases tn with _ | tn <;>
    simp [buildSastCommand, buildScaCommand, reportFlags, bind, Except.bind, pure, Except.pure]

/-- C7: with `project_name` set and `target_name` unset, both scan
commands end with exactly the `--report` and `--project-name` flags and
no `--target-name` flag; with both set, all three are appended; with
`project_name` unset, none of the three appear whatever `target_name`
is. -/
theorem trigger_scan_report_flags :
    ∀ (t p n : String),
      buildSastCommand (.pyStr t) (some p) none
        = .ok ["snyk", "code", "test", "--json", t, "--report", "--project-name=" ++ p]
    ∧ buildSastCommand (.pyStr t) (some p) (some n)
        = .ok ["snyk", "code", "test", "--json", t, "--report", "--project-name=" ++ p,
               "--target-name=" ++ n]
    ∧ (∀ tn : Option String,
        buildSastCommand (.pyStr t) none tn = .ok ["snyk", "code", "test", "--json", t])
    ∧ buildScaCommand (.pyStr t) (some p) none
        = .ok ["snyk", "test", "--json", t, "--report", "--project-name=" ++ p]
    ∧ buildScaCommand (.pyStr t) (some p) (some n)
        = .ok ["snyk", "test", "--json", t, "--report", "--project-name=" ++ p,
               "--target-name=" ++ n]
    ∧ (∀ tn : Option String,
        buildScaCommand (.pyStr t) none tn = .ok ["snyk", "test", "--json", t]) := by
  intro t p n
  refine ⟨rfl, rfl, ?_, rfl, rfl, ?_⟩ <;> intro tn <;> rcases tn with _ | tn <;> rfl

/-- C10: calling either trigger function with a target that is neither a
string nor a list fails with `UnboundLocalError` (the `command` local is
never assigned, the validating else-branch being commented out): no
subprocess runs, no result is returned, and the error is not the
structured `ValueError` the commented-out branch would have raised. -/
theorem trigger_scan_invalid_target :
    ∀ (pn tn : Option String) (rc : Int) (parsed : Option RawScanResult) (k : Int),
      trigger_sast_scan .pyNone pn tn rc parsed = (.error .unboundLocalError, [])
    ∧ trigger_sast_scan (.pyInt k) pn tn rc parsed = (.error .unboundLocalError, [])
    ∧ trigger_sca_scan .pyNone pn tn rc parsed = (.error .unboundLocalError, [])
    ∧ trigger_sca_scan (.pyInt k) pn tn rc parsed = (.error .unboundLocalError, [])
    ∧ ∀ msg : String, PyError.unboundLocalError ≠ .valueError msg := by
  intro pn tn rc parsed k
  refine ⟨rfl, rfl, rfl, rfl, ?_⟩
  intro msg
  simp

/-- C4: in push mode with report upload requested (`--scan-for-push
--report`), `main` calls `scanner.trigger_sast_scan(project_name=
project_path)` (line 338), omitting the required positional `target`
argument: the call raises `TypeError` before any scanner invocation, so
-- contrary to the specified behaviour -- the scanner is never invoked
with upload flags, and the process dies with an uncaught exception. -/
theorem main_push_report_missing_target :
    mainRun
      { scan_for_push := true, scan_for_pr := false, report := true,
        target_name := none, base_branch := none, pr_branch := none, repo_path := "./" }
      { project_path := some "demo", org_id := none, project_id := none,
        auth_token := "tok", target := .pyStr "." }
      { toolInstalled := true, envHasSnykToken := false, authOk := true,
        scanReturncode := 1, scanParsed := some { runs := some [], scan_time := none },
        changedFiles := [] }
      = (.uncaught .typeError, [])
    ∧ (RunResult.uncaught .typeError).processExit = 1 := by
  exact ⟨rfl, rfl⟩

/-- C8 counterexample: a run where the auth subprocess fails exits with
status 1 (the `CalledProcessError` matches no handler in `main`) even
though no scan was performed and the gate never evaluated any
high-severity finding -- refuting "a distinguished non-zero exit code is
produced exactly when the gate fails due to high-severity findings". -/
theorem main_nonzero_exit_without_gate_failure :
    mainRun
      { scan_for_push := true, scan_for_pr := false, report := false,
        target_name := none, base_branch := none, pr_branch := none, repo_path := "./" }
      { project_path := none, org_id := none, project_id := none,
        auth_token := "tok", target := .pyStr "." }
      { toolInstalled := true, envHasSnykToken := true, authOk := false,
        scanReturncode := 0, scanParsed := none, changedFiles := [] }
      = (.exit 0, [])
    ∧ mainRun
      { scan_for_push := true, scan_for_pr := false, report := false,
        target_name := none, base_branch := none, pr_branch := none, repo_path := "./" }
      { project_path := none, org_id := none, project_id := none,
        auth_token := "tok", target := .pyStr "." }
      { toolInstalled := true, envHasSnykToken := false, authOk := false,
        scanReturncode := 0, scanParsed := none, changedFiles := [] }
      = (.uncaught .calledProcessError, [])
    ∧ (RunResult.uncaught .calledProcessError).processExit = 1 := by
  exact ⟨rfl, rfl, rfl⟩

/-- C8 amended: exit status 0 when the gate passes (or the parsed result
dict is falsy), when the tool check fails, and when the `SNYK_TOKEN`
`ValueError` occurs (graceful early returns); `sys.exit(1)` exactly when
the gate fails on a positive `high` bucket; but an auth subprocess
failure, a JSON parse failure, or the missing-target `TypeError` of
push-with-report mode escape as uncaught exceptions, whose process exit
status is also 1 -- so a non-zero exit is not exclusive to gate
failure. -/
theorem main_exit_status :
    (∀ (args : Args) (config : Config) (w : World),
        mainRun args config { w with toolInstalled := false } = (.exit 0, []))
  ∧ (∀ (args : Args) (config : Config) (w : World),
        mainRun args config { w with toolInstalled := true, envHasSnykToken := true }
          = (.exit 0, []))
  ∧ (∀ (args : Args) (config : Config) (w : World),
        mainRun args config
          { w with toolInstalled := true, envHasSnykToken := false, authOk := false }
          = (.uncaught .calledProcessError, []))
  ∧ (∀ (args : Args) (config : Config) (w : World) (t : String) (r : RawScanResult),
        mainRun { args with scan_for_push := true, report := false }
          { config with target := .pyStr t }
          { w with toolInstalled := true, envHasSnykToken := false, authOk := true,
                   scanParsed := some r }
          = (if r.truthy then
               (if (summarize_severities r).high > 0 then .exit 1 else .exit 0)
             else .exit 0,
             [["snyk", "code", "test", "--json", t]]))
  ∧ (∀ (args : Args) (config : Config) (w : World) (t : String),
        mainRun { args with scan_for_push := true, report := false }
          { config with target := .pyStr t }
          { w with toolInstalled := true, envHasSnykToken := false, authOk := true,
                   scanParsed := none }
          = (.uncaught .jsonDecodeError, [["snyk", "code", "test", "--json", t]]))
  ∧ (∀ (args : Args) (config : Config) (w : World),
        mainRun { args with scan_for_push := true, report := true } config
          { w with toolInstalled := true, envHasSnykToken := false, authOk := true }
          = (.uncaught .typeError, []))
  ∧ (∀ (args : Args) (config : Config) (w : World),
        mainRun { args with scan_for_push := false } config
          { w with toolInstalled := true, envHasSnykToken := false, authOk := true }
          = (.exit 0, [])) := by
  refine ⟨?_, ?_, ?_, ?_, ?_, ?_, ?_⟩
  · intro args config w
    simp [mainRun]
  · intro args config w
    simp [mainRun, check_snyk_token]
  · intro args config w
    simp [mainRun, check_snyk_token]
  · intro args config w t r
    by_cases ht : r.truthy <;>
      by_cases hh : (summarize_severities r).high > 0 <;>
        simp [mainRun, check_snyk_token, trigger_sast_scan, buildSastCommand,
          evaluate_severity_summary, ht, hh, pure, Except.pure, bind, Except.bind]
  · intro args config w t
    simp [mainRun, check_snyk_token, trigger_sast_scan, buildSastCommand,
      pure, Except.pure, bind, Except.bind]
  · intro args config w
    simp [mainRun, check_snyk_token]
  · intro args config w
    simp [mainRun, check_snyk_token]

/-- C9: in PR mode (`--scan-for-pr` without `--scan-for-push`) `main`
performs no scanner invocation at all -- in particular it never invokes
the scanner with an empty file list -- whatever the change-set resolver
would have returned (including zero changed files): no branch of `main`
consumes `scan_for_pr` or calls `get_changed_files`. -/
theorem main_pr_mode_no_scanner_invocation :
    ∀ (args : Args) (config : Config) (w : World),
      (mainRun { args with scan_for_push := false, scan_for_pr := true } config w).snd
        = [] := by
  intro args config w
  rcases w with ⟨ti, ehs, ao, rc, sp, cf⟩
  cases ti <;> cases ehs <;> cases ao <;> simp [mainRun, check_snyk_token]
